import Mathlib

/-!
Shallow embedding of the SafeNest/Tuteliq React Native binding layer:
the shared-client provider and lookup of src/src/context.tsx, and the
family of async-operation hooks of src/src/hooks.ts and
src/unnamed/part_000. All eighteen hooks share one body verbatim,
differing only in the bound client method and its input and output
types, so the embedding models the shared body once, parametrised by
the output type. The input record is passed through to the collaborator
untouched; only the settlement outcome of the collaborator call reaches
the state machine, so the outcome is what the events carry.
-/

/-- JsError models a JavaScript Error object, identified by its message. -/
structure JsError where
  message : String
  deriving DecidableEq, Repr

/-- JsValue models a value thrown by the collaborator call: either a genuine
Error object, or any other thrown value kept as its string representation,
which is what String applied to it yields. -/
inductive JsValue where
  | errorVal (e : JsError)
  | otherVal (stringRep : String)
  deriving DecidableEq, Repr

/-- normalizeError embeds the catch-branch line shared by every hook, namely
err instanceof Error ? err : new Error(String(err)) — an Error passes
through unchanged, any other thrown value is wrapped in a synthesized Error
holding its string representation. -/
def normalizeError : JsValue → JsError
  | .errorVal e => e
  | .otherVal s => ⟨s⟩

/-- AsyncState embeds the AsyncState interface of hooks.ts, with fields data,
loading and error; null is modelled by none. -/
structure AsyncState (T : Type) where
  data : Option T
  loading : Bool
  error : Option JsError
  deriving DecidableEq, Repr

/-- initialState is the useState initialiser of every hook: data null,
loading false, error null. -/
def initialState (T : Type) : AsyncState T := ⟨none, false, none⟩

/-- pendingState is the state stored synchronously at the top of execute,
before the collaborator call is awaited: data null, loading true, error
null. -/
def pendingState (T : Type) : AsyncState T := ⟨none, true, none⟩

/-- commitSettlement is the state stored when the awaited collaborator call
settles: the try branch stores the result with loading false and no error,
the catch branch stores the normalized error with loading false and no
data. The source stores this unconditionally, with no check that the call
is still the most recent one. -/
def commitSettlement {T : Type} : Except JsValue T → AsyncState T
  | .ok r => ⟨some r, false, none⟩
  | .error v => ⟨none, false, some (normalizeError v)⟩

/-- executeOutcome is what the awaiting caller of execute observes: the
result value returned on success, the normalized error re-thrown on
failure. -/
def executeOutcome {T : Type} : Except JsValue T → Except JsError T
  | .ok r => .ok r
  | .error v => .error (normalizeError v)

/-- OpEvent is one event-loop step touching a single hook instance: an
execute call running its synchronous prefix (start), an in-flight call
settling and committing its outcome (settle), or a reset call. Call ids
distinguish overlapping invocations of execute. -/
inductive OpEvent (T : Type) where
  | start (id : Nat)
  | settle (id : Nat) (outcome : Except JsValue T)
  | reset

/-- stepState is the state transition the hook body performs at each event,
mirroring the three setState calls in the source: the synchronous prefix
of execute stores the pending state, a settlement stores commitSettlement
of its outcome regardless of the current state, and reset stores the
initial state. -/
def stepState {T : Type} (_s : AsyncState T) : OpEvent T → AsyncState T
  | .start _ => pendingState T
  | .settle _ o => commitSettlement o
  | .reset => initialState T

/-- runTrace folds a sequence of events from the initial state, giving the
state a subscriber observes after the whole sequence has run. -/
def runTrace {T : Type} (tr : List (OpEvent T)) : AsyncState T :=
  tr.foldl stepState (initialState T)

/-- validAux checks that every settle event settles a call that was started
earlier with a fresh id and has not settled yet, threading the list of ids
started so far and the list of ids still in flight. -/
def validAux {T : Type} : List Nat → List Nat → List (OpEvent T) → Bool
  | _, _, [] => true
  | started, inflight, .start i :: es =>
      !(started.contains i) && validAux (i :: started) (i :: inflight) es
  | started, inflight, .settle i _ :: es =>
      inflight.contains i && validAux started (inflight.erase i) es
  | started, inflight, .reset :: es => validAux started inflight es

/-- validTrace holds of the event sequences the single-threaded event loop
can actually produce: each settlement settles a call that was started and
has not settled before. -/
def validTrace {T : Type} (es : List (OpEvent T)) : Bool := validAux [] [] es

/-- settledStep updates the flag recording whether some invocation has
settled since the last reset. -/
def settledStep {T : Type} (b : Bool) : OpEvent T → Bool
  | .start _ => b
  | .settle _ _ => true
  | .reset => false

/-- settledSinceReset is true of a trace when some settlement event occurs in
it after its last reset event. -/
def settledSinceReset {T : Type} (tr : List (OpEvent T)) : Bool :=
  tr.foldl settledStep false

/-- settledShape states that exactly one of data and error is present. -/
def settledShape {T : Type} (s : AsyncState T) : Prop :=
  (s.data ≠ none ∧ s.error = none) ∨ (s.data = none ∧ s.error ≠ none)

/-- SafeNestOptions models the optional configuration record passed to the
client constructor, kept abstract as a single blob. -/
structure SafeNestOptions where
  blob : String
  deriving DecidableEq, Repr

/-- SafeNestClient models the constructed SDK client handle. The field
ctorIndex records which constructor call produced the handle, so two
handles are the same instance exactly when they are equal. -/
structure SafeNestClient where
  ctorIndex : Nat
  apiKey : String
  options : Option SafeNestOptions
  deriving DecidableEq, Repr

/-- SafeNestContextValue embeds the context value type of context.tsx,
holding the client and the isReady flag. -/
structure SafeNestContextValue where
  client : SafeNestClient
  isReady : Bool
  deriving DecidableEq, Repr

/-- ProviderProps embeds SafeNestProviderProps without the children field,
which only nests the subtree and carries no data of its own. -/
structure ProviderProps where
  apiKey : String
  options : Option SafeNestOptions
  deriving DecidableEq, Repr

/-- ScopeState is the per-scope hook state persisting across re-renders: the
useRef cell holding the client, the useMemo cache for the empty dependency
list, and a counter of constructor calls standing for the construction
side effect observed by a test double. -/
structure ScopeState where
  clientRef : Option SafeNestClient
  memoValue : Option SafeNestContextValue
  ctorCount : Nat
  deriving DecidableEq, Repr

/-- initialScope is the hook state of a freshly mounted scope: empty ref
cell, empty memo cache, zero constructor calls. -/
def initialScope : ScopeState := ⟨none, none, 0⟩

/-- renderProvider is one evaluation of the SafeNestProvider function body:
the client is constructed only when the ref cell is empty, and the context
value is recomputed only when the memo cache is empty, matching useRef
plus the guard and useMemo with an empty dependency list. -/
def renderProvider (p : ProviderProps) (st : ScopeState) :
    SafeNestContextValue × ScopeState :=
  let clientAndCount : SafeNestClient × Nat :=
    match st.clientRef with
    | some c => (c, st.ctorCount)
    | none => (⟨st.ctorCount, p.apiKey, p.options⟩, st.ctorCount + 1)
  let value : SafeNestContextValue :=
    match st.memoValue with
    | some v => v
    | none => ⟨clientAndCount.1, true⟩
  (value, ⟨some clientAndCount.1, some value, clientAndCount.2⟩)

/-- runProvider evaluates the provider once per element of the props list,
threading the persistent scope state, and collects the context value the
descendants see at each render. -/
def runProvider : ScopeState → List ProviderProps → List SafeNestContextValue × ScopeState
  | st, [] => ([], st)
  | st, p :: ps =>
      let r1 := renderProvider p st
      let rest := runProvider r1.2 ps
      (r1.1 :: rest.1, rest.2)

/-- ScopeMissingError models the synchronous failure thrown by the lookup
hook outside any provider, identified by its message. -/
structure ScopeMissingError where
  message : String
  deriving DecidableEq, Repr

/-- useSafeNestClient embeds the lookup hook of context.tsx: the context read
yields none outside any provider, in which case the hook throws; inside a
provider it returns the context value unchanged. -/
def useSafeNestClient (ctx : Option SafeNestContextValue) :
    Except ScopeMissingError SafeNestContextValue :=
  match ctx with
  | none => Except.error ⟨"useSafeNestClient must be used within a SafeNestProvider"⟩
  | some v => Except.ok v

/-- Appending events to a trace folds the extra events from the state the
original trace reaches. -/
theorem runTrace_append {T : Type} (tr es : List (OpEvent T)) :
    runTrace (tr ++ es) = es.foldl stepState (runTrace tr) := by
  simp [runTrace, List.foldl_append]

/-- Preservation of the state invariant along any event sequence: from a
state and settled-flag pair satisfying the invariant, folding any further
events preserves it. -/
theorem invariant_aux {T : Type} (tr : List (OpEvent T)) (s : AsyncState T) (b : Bool)
    (ha : s.loading = true → s.data = none)
    (hb : s.loading = false → b = true → settledShape s) :
    ((tr.foldl stepState s).loading = true → (tr.foldl stepState s).data = none)
    ∧ ((tr.foldl stepState s).loading = false → tr.foldl settledStep b = true →
        settledShape (tr.foldl stepState s)) := by
  induction tr generalizing s b with
  | nil => exact ⟨ha, hb⟩
  | cons e es ih =>
      simp only [List.foldl_cons]
      cases e with
      | start i =>
          exact ih (pendingState T) b (fun _ => rfl) (fun h => nomatch h)
      | settle i o =>
          refine ih (commitSettlement o) true ?_ ?_
          · cases o with
            | ok r => exact fun h => nomatch h
            | error v => exact fun _ => rfl
          · intro _ _
            cases o with
            | ok r => exact Or.inl ⟨Option.some_ne_none r, rfl⟩
            | error v => exact Or.inr ⟨rfl, Option.some_ne_none (normalizeError v)⟩
      | reset =>
          exact ih (initialState T) false (fun _ => rfl) (fun _ h => nomatch h)

/-- C1: the claim fails on the code. The schedule start call 0, reset, then
call 0 settling with result 7 is a valid event-loop schedule, yet the
final state holds the stale result with loading false instead of remaining
the post-reset idle state, because the shared hook body commits every
settlement unconditionally, with no generation or staleness guard. -/
theorem c1_reset_during_flight_stale_commit :
    validTrace [OpEvent.start 0, OpEvent.reset, OpEvent.settle 0 (Except.ok (7 : Nat))] = true
    ∧ runTrace [OpEvent.start 0, OpEvent.reset, OpEvent.settle 0 (Except.ok (7 : Nat))]
        = ⟨some 7, false, none⟩
    ∧ runTrace [OpEvent.start 0, OpEvent.reset, OpEvent.settle 0 (Except.ok (7 : Nat))]
        ≠ initialState Nat :=
  ⟨by decide, rfl, by decide⟩

/-- C2: the claim fails on the code. In the valid schedule where call 0
starts, call 1 starts, call 1 settles with 20 and only then the older
call 0 settles with 10, the final state holds 10, the result of the
superseded older call, clobbering the newer result 20, because the shared
hook body commits every settlement unconditionally. -/
theorem c2_race_stale_overwrite :
    validTrace [OpEvent.start 0, OpEvent.start 1, OpEvent.settle 1 (Except.ok (20 : Nat)),
        OpEvent.settle 0 (Except.ok 10)] = true
    ∧ runTrace [OpEvent.start 0, OpEvent.start 1, OpEvent.settle 1 (Except.ok (20 : Nat)),
        OpEvent.settle 0 (Except.ok 10)] = ⟨some 10, false, none⟩
    ∧ runTrace [OpEvent.start 0, OpEvent.start 1, OpEvent.settle 1 (Except.ok (20 : Nat)),
        OpEvent.settle 0 (Except.ok 10)] ≠ ⟨some 20, false, none⟩ :=
  ⟨by decide, rfl, by decide⟩

/-- C3: after any prior history, an execute invocation whose collaborator
call resolves with a result leaves the state holding exactly that result
with loading false and no error, and the awaiting caller receives the very
same result value, so state observation and direct await agree. -/
theorem c3_success_state_and_return (T : Type) (pre : List (OpEvent T)) (i : Nat) (r : T) :
    runTrace (pre ++ [OpEvent.start i, OpEvent.settle i (Except.ok r)]) = ⟨some r, false, none⟩
    ∧ executeOutcome (Except.ok r : Except JsValue T) = Except.ok r := by
  refine ⟨?_, rfl⟩
  rw [runTrace_append]; rfl

/-- C4: after any prior history, an execute invocation whose collaborator
call throws a value leaves the state with no data, loading false and the
normalized error, the awaiting caller gets exactly that normalized error
re-raised, and normalization passes an Error object through unchanged
while wrapping the string representation of any other thrown value. -/
theorem c4_failure_normalizes_and_rethrows (T : Type) (pre : List (OpEvent T)) (i : Nat)
    (v : JsValue) :
    runTrace (pre ++ [OpEvent.start i, OpEvent.settle i (Except.error v)])
        = ⟨none, false, some (normalizeError v)⟩
    ∧ executeOutcome (Except.error v : Except JsValue T) = Except.error (normalizeError v)
    ∧ (∀ e : JsError, normalizeError (JsValue.errorVal e) = e)
    ∧ (∀ s : String, normalizeError (JsValue.otherVal s) = ⟨s⟩) := by
  refine ⟨?_, rfl, fun _ => rfl, fun _ => rfl⟩
  rw [runTrace_append]; rfl

/-- C5: a reset after any history whatsoever, from idle, pending, fulfilled
or rejected, leaves the state equal to the all-absent initial state. -/
theorem c5_reset_returns_to_idle (T : Type) (pre : List (OpEvent T)) :
    runTrace (pre ++ [OpEvent.reset]) = initialState T := by
  rw [runTrace_append]; rfl

/-- C6: the synchronous prefix of execute, run before the collaborator call
is awaited, moves the state from any prior state to the pending state with
no data, loading true and no error, clearing previously stored data or
errors. -/
theorem c6_execute_synchronously_pending (T : Type) (pre : List (OpEvent T)) (i : Nat) :
    runTrace (pre ++ [OpEvent.start i]) = ⟨none, true, none⟩ := by
  rw [runTrace_append]; rfl

/-- C7: after every event sequence on one hook instance, loading true
implies data is absent; when loading is false and some invocation has
settled since the last reset, exactly one of data and error is present;
and the state is the all-absent initial state both before any event and
immediately after every reset. -/
theorem c7_state_invariant (T : Type) (tr pre : List (OpEvent T)) :
    ((runTrace tr).loading = true → (runTrace tr).data = none)
    ∧ ((runTrace tr).loading = false → settledSinceReset tr = true →
        settledShape (runTrace tr))
    ∧ runTrace ([] : List (OpEvent T)) = initialState T
    ∧ runTrace (pre ++ [OpEvent.reset]) = initialState T := by
  refine ⟨?_, ?_, rfl, ?_⟩
  · exact (invariant_aux tr (initialState T) false (fun _ => rfl) (fun _ h => nomatch h)).1
  · exact (invariant_aux tr (initialState T) false (fun _ => rfl) (fun _ h => nomatch h)).2
  · rw [runTrace_append]; rfl

/-- Concrete instantiation of the invariant theorem on a settled trace. -/
theorem c7_state_invariant_witness :
    settledShape (runTrace [OpEvent.start 0, OpEvent.settle 0 (Except.ok (5 : Nat))]) :=
  (c7_state_invariant Nat [OpEvent.start 0, OpEvent.settle 0 (Except.ok 5)] []).2.1 rfl rfl

/-- A scope whose ref cell and memo cache are both filled re-renders to the
cached value and leaves its state unchanged, whatever props it receives. -/
theorem renderProvider_steady (p : ProviderProps) (c : SafeNestClient)
    (v : SafeNestContextValue) (n : Nat) :
    renderProvider p ⟨some c, some v, n⟩ = (v, ⟨some c, some v, n⟩) := rfl

/-- Folding any number of further renders over a filled scope repeats the
cached value and never changes the scope state. -/
theorem runProvider_steady (ps : List ProviderProps) (c : SafeNestClient)
    (v : SafeNestContextValue) (n : Nat) :
    runProvider ⟨some c, some v, n⟩ ps
      = (List.replicate ps.length v, ⟨some c, some v, n⟩) := by
  induction ps with
  | nil => rfl
  | cons p ps ih => simp [runProvider, renderProvider_steady, ih, List.replicate_succ]

/-- The first render of a fresh scope constructs the client from the first
props, fills both cells, and bumps the constructor counter to one. -/
theorem renderProvider_first (p : ProviderProps) :
    renderProvider p initialScope =
      (⟨⟨0, p.apiKey, p.options⟩, true⟩,
       ⟨some ⟨0, p.apiKey, p.options⟩, some ⟨⟨0, p.apiKey, p.options⟩, true⟩, 1⟩) := rfl

/-- A freshly mounted scope rendered any number of times yields the context
value built from the first props at every render, and ends with both cells
filled and the constructor counter at one. -/
theorem runProvider_cons_initial (p : ProviderProps) (ps : List ProviderProps) :
    runProvider initialScope (p :: ps)
      = (List.replicate (ps.length + 1) ⟨⟨0, p.apiKey, p.options⟩, true⟩,
         ⟨some ⟨0, p.apiKey, p.options⟩, some ⟨⟨0, p.apiKey, p.options⟩, true⟩, 1⟩) := by
  simp [runProvider, renderProvider_first, runProvider_steady, List.replicate_succ]

/-- C8: over any sequence of renders of one mounted scope, the client
constructor runs exactly once, and every render exposes the same client
handle, the one built at the first render. -/
theorem c8_client_constructed_once (p : ProviderProps) (ps : List ProviderProps) :
    (runProvider initialScope (p :: ps)).2.ctorCount = 1
    ∧ ∀ v ∈ (runProvider initialScope (p :: ps)).1,
        v.client = ⟨0, p.apiKey, p.options⟩ := by
  rw [runProvider_cons_initial]
  refine ⟨rfl, ?_⟩
  intro v hv
  rw [List.eq_of_mem_replicate hv]

/-- C10: credential or configuration changes after the first render are
ignored: whatever the later props are, every render exposes the context
value built from the first props, and the isReady flag is constantly
true. -/
theorem c10_later_props_ignored (p : ProviderProps) (ps : List ProviderProps) :
    (runProvider initialScope (p :: ps)).1
        = List.replicate (ps.length + 1) ⟨⟨0, p.apiKey, p.options⟩, true⟩
    ∧ ∀ v ∈ (runProvider initialScope (p :: ps)).1, v.isReady = true := by
  rw [runProvider_cons_initial]
  refine ⟨rfl, ?_⟩
  intro v hv
  rw [List.eq_of_mem_replicate hv]

/-- C9: the lookup hook fails with the scope-missing error when the context
read yields none, mutating nothing since it is a pure function of the
context, and inside a scope it returns the context value unchanged. -/
theorem c9_lookup_outside_scope_fails :
    useSafeNestClient none
        = Except.error ⟨"useSafeNestClient must be used within a SafeNestProvider"⟩
    ∧ ∀ v, useSafeNestClient (some v) = Except.ok v :=
  ⟨rfl, fun _ => rfl⟩
